import Mathlib

/-!
# Jessenger network client

A shallow embedding of `src/client/networkclient.cpp`: the outbox of unacknowledged
real-time messages, the reconnect state machine of the web socket, the token gate and
the request/response operations, followed by the properties established about them.

Conventions of the embedding.

* The client object is a value of `NetworkClient`; every member function is a function on
  that value.  Everything the client does to the outside (signals emitted, frames sent,
  requests handed to the transport, tokens written to the token store) is appended to the
  field `log`, in program order.
* The answers of the request/response transport are a script (`replies`), consumed one
  per request.  A blocking call that finds the script empty never returns (`none`).
* Operations that restart themselves after a transport failure take a restart budget as
  their first argument; `none` is also the result when the budget is used up.
* Times are milliseconds since the epoch, as integers.
-/

namespace Jessenger

/-! ## Qt value types -/

/-- JSON value as held by a `QJsonValue`.  Numbers are never inspected by the client and
are carried as integers. -/
inductive QJsonValue where
  | null
  | bool (b : Bool)
  | double (d : Int)
  | string (s : String)
  | array (items : List QJsonValue)
  | object (members : List (String × QJsonValue))
  | undefined

/-- Members of a `QJsonObject`, by key. -/
abbrev QJsonObject := List (String × QJsonValue)

/-- Items of a `QJsonArray`. -/
abbrev QJsonArray := List QJsonValue

/-- Result of `QJsonDocument::fromJson`: a null document, an object or an array. -/
inductive QJsonDocument where
  | null
  | object (o : QJsonObject)
  | array (a : QJsonArray)

/-- Method `QJsonDocument::object()`: the object of the document, empty when the document
holds none. -/
def QJsonDocument.toObject : QJsonDocument → QJsonObject
  | .object o => o
  | _ => []

/-- Method `QJsonDocument::array()`: the array of the document, empty when the document
holds none. -/
def QJsonDocument.toArray : QJsonDocument → QJsonArray
  | .array a => a
  | _ => []

/-- Lookup `QJsonObject::operator[]`: the value stored under `key`, `undefined` when the
key is absent. -/
def QJsonObject.value : QJsonObject → String → QJsonValue
  | [], _ => QJsonValue.undefined
  | (k, v) :: rest, key => if k = key then v else QJsonObject.value rest key

/-- Method `QJsonValue::toString()`: the string held, the null string for any other type. -/
def QJsonValue.toStr : QJsonValue → String
  | .string s => s
  | _ => ""

/-- Comparison `value == "text"`: true exactly for a JSON string with that content. -/
def QJsonValue.equalsString : QJsonValue → String → Bool
  | .string s, text => decide (s = text)
  | _, _ => false

/-- Method `QJsonObject::contains`. -/
def QJsonObject.containsKey : QJsonObject → String → Bool
  | [], _ => false
  | (k, _) :: rest, key => decide (k = key) || QJsonObject.containsKey rest key

/-- The UTF-16 code units of a character. -/
def utf16Units (c : Char) : List Nat :=
  if c.toNat < 0x10000 then [c.toNat]
  else [0xd800 + (c.toNat - 0x10000) / 0x400, 0xdc00 + (c.toNat - 0x10000) % 0x400]

/-- Lexicographic order on sequences of code units. -/
def codeUnitsLess : List Nat → List Nat → Bool
  | _, [] => false
  | [], _ :: _ => true
  | a :: as, b :: bs => decide (a < b) || (decide (a = b) && codeUnitsLess as bs)

/-- Order of the keys of a `QJsonObject`: `QString` order, by UTF-16 code units. -/
def keyLess (a b : String) : Bool :=
  codeUnitsLess (a.data.flatMap utf16Units) (b.data.flatMap utf16Units)

/-- A member `key: null` added to an object that has no member `key`, at the place of
the key among the members, which an object keeps in key order. -/
def QJsonObject.insertNull : QJsonObject → String → QJsonObject
  | [], key => [(key, QJsonValue.null)]
  | (k, v) :: rest, key =>
    if keyLess key k then (key, QJsonValue.null) :: (k, v) :: rest
    else (k, v) :: QJsonObject.insertNull rest key

/-- The object after `object[key]` on a `QJsonObject` that is not const: a key that is
absent has been added with the value null. -/
def QJsonObject.referenced (o : QJsonObject) (key : String) : QJsonObject :=
  if QJsonObject.containsKey o key then o else QJsonObject.insertNull o key

/-- Whitespace in the sense of `QChar::isSpace`. -/
def isSpace (c : Char) : Bool :=
  let n := c.toNat
  n = 0x20 || (0x09 ≤ n && n ≤ 0x0d) || n = 0x85 || n = 0xa0 || n = 0x1680 ||
    (0x2000 ≤ n && n ≤ 0x200a) || n = 0x2028 || n = 0x2029 || n = 0x202f ||
    n = 0x205f || n = 0x3000

/-- Whitespace in the sense of `QByteArray::simplified` (ASCII only). -/
def isAsciiSpace (c : Char) : Bool :=
  let n := c.toNat
  n = 0x20 || (0x09 ≤ n && n ≤ 0x0d)

/-- Inner loop of `simplified`: `gap` records that whitespace was skipped since the last
character written. -/
def simplifiedGo (space : Char → Bool) : Bool → List Char → List Char
  | _, [] => []
  | gap, c :: cs =>
    if space c then simplifiedGo space true cs
    else if gap then ' ' :: c :: simplifiedGo space false cs
    else c :: simplifiedGo space false cs

/-- Method `simplified()`: whitespace removed from both ends, every inner run of
whitespace replaced by one space. -/
def simplifiedWith (space : Char → Bool) (s : String) : String :=
  ⟨simplifiedGo space false (s.data.dropWhile space)⟩

/-- Method `QString::simplified()`. -/
def simplified (s : String) : String := simplifiedWith isSpace s

/-- Method `QByteArray::simplified()`. -/
def simplifiedBytes (s : String) : String := simplifiedWith isAsciiSpace s

/-- Inner loop of `replace`: `skip` counts the characters of a match still to be dropped. -/
def replaceGo (before after : List Char) : Nat → List Char → List Char
  | _, [] => []
  | skip + 1, _ :: cs => replaceGo before after skip cs
  | 0, c :: cs =>
    if before.isPrefixOf (c :: cs) then after ++ replaceGo before after (before.length - 1) cs
    else c :: replaceGo before after 0 cs

/-- Method `replace(before, after)` for a non-empty `before`: every occurrence of `before`,
found left to right without overlap, is replaced by `after`. -/
def replace (before after : String) (s : String) : String :=
  ⟨replaceGo before.data after.data 0 s.data⟩

/-- Map `QMap<QString, QString>`: the entries in key order. -/
abbrev QMap := List (String × String)

/-- Lookup `QMap::operator[]`: the value stored under `key`, the null string when absent. -/
def QMap.value : QMap → String → String
  | [], _ => ""
  | (k, v) :: rest, key => if k = key then v else QMap.value rest key

/-- Method `QMap::contains`. -/
def QMap.containsKey : QMap → String → Bool
  | [], _ => false
  | (k, _) :: rest, key => decide (k = key) || QMap.containsKey rest key

/-- Request `QNetworkRequest`: the URL and the headers set on it. -/
structure QNetworkRequest where
  url : String
  headers : List (String × String)
deriving DecidableEq

/-- Method `setRawHeader` / `setHeader`: the header replaces one of the same name. -/
def QNetworkRequest.setRawHeader (request : QNetworkRequest) (name value : String) :
    QNetworkRequest :=
  { request with headers := request.headers.filter (fun h => h.1 ≠ name) ++ [(name, value)] }

/-- Error code `QNetworkReply::NetworkError`, as far as the client tells the codes apart. -/
inductive NetworkError where
  | NoError
  | ConnectionRefusedError
  | RemoteHostClosedError
  | HostNotFoundError
  | TimeoutError
  | UnknownNetworkError
deriving DecidableEq

/-- A finished `QNetworkReply`: its error code, its HTTP status code and its body in the
pieces in which `readyRead` delivered it. -/
structure QNetworkReply where
  error : NetworkError
  status : Int
  chunks : List String
deriving DecidableEq

/-- Method `readAll()` on a finished reply nobody has read from: the whole body. -/
def QNetworkReply.readAll (reply : QNetworkReply) : String :=
  String.join reply.chunks

/-- The test `error() == HostNotFoundError || error() == ConnectionRefusedError`. -/
def QNetworkReply.transportFailed (reply : QNetworkReply) : Bool :=
  decide (reply.error = NetworkError.HostNotFoundError) ||
    decide (reply.error = NetworkError.ConnectionRefusedError)

/-! ## Data model of the client -/

/-- A message waiting for its acknowledgment (`WsMessage`). -/
structure WsMessage where
  createdAt : Int
  message : String
  tempId : String
deriving DecidableEq

/-- Modelled from the spec: the token store `AuthorizationManager` is not part of the
sources; it holds the current access and refresh token, read by `getAccessToken` and
`getRefreshToken` and written by `setAccessToken` and `setBothTokens`. -/
structure AuthorizationManager where
  accessToken : String
  refreshToken : String
deriving DecidableEq

/-- Library functions and the expiry test of the token store, which the client calls
but does not define. -/
structure Env where
  fromJson : String → QJsonDocument
  toLongLong : String → Int
  isAccessTokenExpired : AuthorizationManager → Bool

/-- Signals of `NetworkClient`. -/
inductive Signal where
  | initialized
  | webSocketMessageReceived (data : QJsonObject)
  | webSocketConnectedSignal
  | webSocketDisconnectedSignal
  | httpSignError (text : String)
  | shouldConfirmEmailSignal
  | httpSignProcessed
  | unauthorizedSignal
  | createGroupError (text : String)
  | createGroupProcessed (data : QJsonObject)
  | findChatsProcessed (data : QJsonArray)
  | getYourChatsProcessed (data : QJsonArray)
  | getDialogueMessagesProcessed (data : QJsonArray) (otherId : Int) (firstPage : Bool)
  | getGroupMessagesProcessed (data : QJsonArray) (groupId : Int) (firstPage : Bool)

/-- What the client does to its surroundings. -/
inductive Effect where
  | emit (signal : Signal)
  | sendTextMessage (message : String)
  | wsOpen (request : QNetworkRequest)
  | wsAbort
  | post (request : QNetworkRequest) (content : String)
  | get (request : QNetworkRequest)
  | setAccessToken (access : String)
  | setBothTokens (access refresh : String)

/-- State of a `NetworkClient` together with its surroundings: the pending 5000 ms
single-shot timers started by `connectWebSocket`, the script of transport replies,
and the log of effects. -/
structure NetworkClient where
  webSocketConnecting : Bool
  webSocketConnected : Bool
  pendingWsMessages : List WsMessage
  authorizationManager : AuthorizationManager
  watchdogs : Nat
  replies : List QNetworkReply
  log : List Effect

/-- Emission of a signal. -/
def NetworkClient.emit (s : NetworkClient) (signal : Signal) : NetworkClient :=
  { s with log := s.log ++ [Effect.emit signal] }

/-- The text frames sent over the web socket, in order. -/
def sentFrames : List Effect → List String
  | [] => []
  | Effect.sendTextMessage m :: rest => m :: sentFrames rest
  | _ :: rest => sentFrames rest

/-- The signals emitted, in order. -/
def emitted : List Effect → List Signal
  | [] => []
  | Effect.emit signal :: rest => signal :: emitted rest
  | _ :: rest => emitted rest

/-! ## Real-time session -/

/-- Function `NetworkClient::initialize`, for a token store and a transport script. -/
def initializeClient (tokens : AuthorizationManager) (replies : List QNetworkReply) :
    NetworkClient :=
  { webSocketConnecting := false
    webSocketConnected := false
    pendingWsMessages := []
    authorizationManager := tokens
    watchdogs := 0
    replies := replies
    log := [Effect.emit Signal.initialized] }

/-- Function `NetworkClient::isWebSocketConnected`. -/
def isWebSocketConnected (s : NetworkClient) : Bool := s.webSocketConnected

/-- The scan of `webSocketMessageReceivedSlot`: the first entry whose id is `tempId` is
removed and the scan stops. -/
def removeAcknowledged (tempId : String) : List WsMessage → List WsMessage
  | [] => []
  | current :: rest =>
    if current.tempId = tempId then rest else current :: removeAcknowledged tempId rest

/-- Function `NetworkClient::webSocketMessageReceivedSlot`. -/
def webSocketMessageReceivedSlot (env : Env) (s : NetworkClient) (message : String) :
    NetworkClient :=
  let data := (env.fromJson message).toObject
  let data := QJsonObject.referenced data "method"
  if (QJsonObject.value data "method").equalsString "acknowledged" then
    let data := QJsonObject.referenced data "tempId"
    let tempId := (QJsonObject.value data "tempId").toStr
    { s with pendingWsMessages := removeAcknowledged tempId s.pendingWsMessages }
  else
    s.emit (Signal.webSocketMessageReceived data)

/-- The loop of `sendPendingWsMessages`: the frames it sends, in order. -/
def resendLoop (connected : Bool) (msecs : Int) : List WsMessage → List Effect
  | [] => []
  | current :: rest =>
    (if current.createdAt + 10000 < msecs then
      (if connected then [Effect.sendTextMessage current.message] else [])
    else []) ++ resendLoop connected msecs rest

/-- Function `NetworkClient::sendPendingWsMessages`, run at time `msecs`. -/
def sendPendingWsMessages (s : NetworkClient) (msecs : Int) : NetworkClient :=
  { s with log := s.log ++ resendLoop s.webSocketConnected msecs s.pendingWsMessages }

/-- Function `NetworkClient::webSocketConnectedSlot`. -/
def webSocketConnectedSlot (s : NetworkClient) : NetworkClient :=
  { s with webSocketConnecting := false, webSocketConnected := true }.emit
    Signal.webSocketConnectedSignal

/-- The entry `sendMessage` creates at time `msecs` for the text `message` of the caller;
`uuid` is the text of the id drawn by `QUuid::createUuid`. -/
def newWsMessage (message : String) (msecs : Int) (uuid : String) : WsMessage :=
  let tempId := uuid
  let message := message ++ ("\"time\": " ++ toString msecs ++ ", \"tempId\": \"" ++ tempId
    ++ "\"\x7d")
  { createdAt := msecs, message := message, tempId := tempId }

/-- Function `NetworkClient::sendMessage`, run at time `msecs` with the id text `uuid`. -/
def sendMessage (s : NetworkClient) (message : String) (msecs : Int) (uuid : String) :
    NetworkClient :=
  let newMessage := newWsMessage message msecs uuid
  let s := { s with pendingWsMessages := s.pendingWsMessages ++ [newMessage] }
  if s.webSocketConnected then
    { s with log := s.log ++ [Effect.sendTextMessage newMessage.message] }
  else s

/-! ## Requests -/

/-- Function `NetworkClient::toUrlEncoded`. -/
def toUrlEncoded : QMap → String
  | [] => ""
  | [(k, v)] => k ++ "=" ++ v
  | (k, v) :: rest => k ++ "=" ++ v ++ "&" ++ toUrlEncoded rest

/-- Function `NetworkClient::formContent`. -/
def formContent (body : QMap) : String := toUrlEncoded body

/-- Function `NetworkClient::createHttpRequest(QString path)`. -/
def createHttpRequest (path : String) : QNetworkRequest :=
  QNetworkRequest.setRawHeader { url := "http://localhost:8080/" ++ path, headers := [] }
    "Content-Type" "application/x-www-form-urlencoded"

/-- Function `NetworkClient::createHttpRequest(QMap body, QString path)`. -/
def createHttpRequestWithQuery (body : QMap) (path : String) : QNetworkRequest :=
  QNetworkRequest.setRawHeader
    { url := "http://localhost:8080/" ++ path ++ "?" ++ toUrlEncoded body, headers := [] }
    "Content-Type" "application/x-www-form-urlencoded"

/-- A request handed to the transport followed by the wait for its `finished` signal:
the request is logged and the next reply of the script is the outcome; with no reply
left the wait never ends. -/
def exchange (s : NetworkClient) (request : Effect) : Option (NetworkClient × QNetworkReply) :=
  match s.replies with
  | [] => none
  | reply :: rest => some ({ s with replies := rest, log := s.log ++ [request] }, reply)

/-- Function `NetworkClient::refresh`: the client afterwards and the value returned. -/
def refresh (env : Env) (s : NetworkClient) (body : QMap) : Option (NetworkClient × Bool) :=
  let request := createHttpRequest "sign/refresh"
  match exchange s (Effect.post request (formContent body)) with
  | none => none
  | some (s, reply) =>
    if reply.transportFailed then some (s, true)
    else if reply.status = 401 then some (s, false)
    else
      let data := (env.fromJson reply.readAll).toObject
      let access := (QJsonObject.value data "access").toStr
      some ({ s with
                authorizationManager := { s.authorizationManager with accessToken := access }
                log := s.log ++ [Effect.setAccessToken access] }, true)

/-- Function `NetworkClient::setAuthorizationHeader`: the client afterwards, the request
as it leaves the function and the value returned. -/
def setAuthorizationHeader (env : Env) (s : NetworkClient) (request : QNetworkRequest) :
    Option (NetworkClient × QNetworkRequest × Bool) :=
  if env.isAccessTokenExpired s.authorizationManager then
    let body : QMap := [("refresh", s.authorizationManager.refreshToken)]
    match refresh env s body with
    | none => none
    | some (s, false) => some (s, request, false)
    | some (s, true) =>
      some (s, request.setRawHeader "Authorization"
        ("Bearer " ++ s.authorizationManager.accessToken), true)
  else
    some (s, request.setRawHeader "Authorization"
      ("Bearer " ++ s.authorizationManager.accessToken), true)

/-! ## Reconnect state machine -/

/-- The first statement of `connectWebSocket`: the attempt is marked outstanding.  This is
the client while the token gate of the attempt waits for its refresh exchange. -/
def beginConnect (s : NetworkClient) : NetworkClient :=
  { s with webSocketConnecting := true }

/-- The request `connectWebSocket` builds before the token gate. -/
def connectRequest : QNetworkRequest :=
  { url := "ws://localhost:8080/websocket/connect", headers := [] }

/-- Function `NetworkClient::connectWebSocket`; the single-shot timer it starts is counted
in `watchdogs`. -/
def connectWebSocket (env : Env) (s : NetworkClient) : Option NetworkClient :=
  let s := beginConnect s
  let request : QNetworkRequest := connectRequest
  match setAuthorizationHeader env s request with
  | none => none
  | some (s, request, _) =>
    some { s with log := s.log ++ [Effect.wsOpen request], watchdogs := s.watchdogs + 1 }

/-- The function `connectWebSocket` hands to `QTimer::singleShot(5000, ...)`, run when one
of the pending timers fires. -/
def watchdogExpired (env : Env) (s : NetworkClient) : Option NetworkClient :=
  match s.watchdogs with
  | 0 => none
  | n + 1 =>
    let s := { s with watchdogs := n }
    if !s.webSocketConnected then
      connectWebSocket env { s with log := s.log ++ [Effect.wsAbort] }
    else some s

/-- Function `NetworkClient::webSocketDisconnected`. -/
def webSocketDisconnected (env : Env) (s : NetworkClient) : Option NetworkClient :=
  let s := { s with webSocketConnected := false }.emit Signal.webSocketDisconnectedSignal
  if !s.webSocketConnecting then connectWebSocket env s else some s

/-- What can happen to the real-time session. -/
inductive Event where
  | sendMessage (message : String) (msecs : Int) (uuid : String)
  | sendPendingWsMessages (msecs : Int)
  | connectWebSocket
  | webSocketConnectedSlot
  | webSocketDisconnected
  | webSocketMessageReceivedSlot (message : String)
  | watchdogExpired

/-- One event handled by the client; `none` when the event cannot happen (no timer is
pending) or its handler never returns. -/
def step (env : Env) (s : NetworkClient) : Event → Option NetworkClient
  | .sendMessage message msecs uuid => some (sendMessage s message msecs uuid)
  | .sendPendingWsMessages msecs => some (sendPendingWsMessages s msecs)
  | .connectWebSocket => connectWebSocket env s
  | .webSocketConnectedSlot => some (webSocketConnectedSlot s)
  | .webSocketDisconnected => webSocketDisconnected env s
  | .webSocketMessageReceivedSlot message => some (webSocketMessageReceivedSlot env s message)
  | .watchdogExpired => watchdogExpired env s

/-- A sequence of events handled one after the other. -/
def run (env : Env) (s : NetworkClient) : List Event → Option NetworkClient
  | [] => some s
  | e :: rest =>
    match step env s e with
    | none => none
    | some s => run env s rest

/-- The frame is an acknowledgment for the id `tempId`, as `webSocketMessageReceivedSlot`
reads it. -/
def acknowledges (env : Env) (message : String) (tempId : String) : Bool :=
  let data := (env.fromJson message).toObject
  (QJsonObject.value data "method").equalsString "acknowledged" &&
    decide ((QJsonObject.value data "tempId").toStr = tempId)

/-- The event is an inbound acknowledgment for the id `tempId`. -/
def Event.acknowledges (env : Env) (tempId : String) : Event → Bool
  | .webSocketMessageReceivedSlot message => Jessenger.acknowledges env message tempId
  | _ => false

/-! ## Sign-in and sign-up -/

/-- The flags and the buffer shared by the two handlers of `sign`. -/
structure SignContext where
  success : Bool
  statusChecked : Bool
  dataAsArray : String
deriving DecidableEq

/-- The values the shared flags and buffer are created with. -/
def SignContext.fresh : SignContext :=
  { success := false, statusChecked := false, dataAsArray := "" }

/-- The status text the `readyRead` handler of `sign` computes from the first chunk. -/
def signStatus (chunk : String) : String :=
  replace "data:" "" (simplified chunk)

/-- The `readyRead` handler of `sign`, for the chunk `readAll()` returns. -/
def signReadyRead (acc : SignContext × NetworkClient) (chunk : String) :
    SignContext × NetworkClient :=
  let (ctx, s) := acc
  if !ctx.statusChecked then
    let ctx := { ctx with statusChecked := true }
    let status := signStatus chunk
    if status = "Not Found" then (ctx, s.emit (Signal.httpSignError "User not found!"))
    else if status = "Forbidden" then (ctx, s.emit (Signal.httpSignError "Wrong password!"))
    else if status = "Conflict" then
      (ctx, s.emit (Signal.httpSignError "User already exists!"))
    else if status = "Unprocessable Entity" then
      (ctx, s.emit (Signal.httpSignError "Something went wrong, try again!"))
    else ({ ctx with success := true }, s.emit Signal.shouldConfirmEmailSignal)
  else
    ({ ctx with dataAsArray := ctx.dataAsArray ++ chunk }, s)

/-- The part of the `finished` handler of `sign` that runs when the transport did not
fail. -/
def signCompleted (env : Env) (ctx : SignContext) (s : NetworkClient) : NetworkClient :=
  if ctx.success then
    let nonPointerData := simplifiedBytes (replace "data:" "" ctx.dataAsArray)
    let data := (env.fromJson nonPointerData).toObject
    let access := (QJsonObject.value data "access").toStr
    let refreshToken := (QJsonObject.value data "refresh").toStr
    { s with
        authorizationManager := { accessToken := access, refreshToken := refreshToken }
        log := s.log ++ [Effect.setBothTokens access refreshToken] }.emit
      Signal.httpSignProcessed
  else s

/-- Function `NetworkClient::sign`: the request, the `readyRead` handler once per chunk,
then the `finished` handler. -/
def sign (env : Env) : Nat → QMap → String → NetworkClient → Option NetworkClient
  | 0, _, _, _ => none
  | budget + 1, body, path, s =>
    let request := createHttpRequest path
    match exchange s (Effect.post request (formContent body)) with
    | none => none
    | some (s, reply) =>
      let (ctx, s) := reply.chunks.foldl signReadyRead (SignContext.fresh, s)
      if reply.transportFailed then
        sign env budget body path
          (s.emit (Signal.httpSignError "We are experiencing some issues on our server!"))
      else some (signCompleted env ctx s)

/-! ## Request/response operations -/

/-- Function `NetworkClient::checkRefreshToken`. -/
def checkRefreshToken (env : Env) : Nat → NetworkClient → Option NetworkClient
  | 0, _ => none
  | budget + 1, s =>
    let body : QMap := [("refresh", s.authorizationManager.refreshToken)]
    let request := createHttpRequestWithQuery body "sign/check-refresh"
    match exchange s (Effect.get request) with
    | none => none
    | some (s, reply) =>
      if reply.transportFailed then checkRefreshToken env budget s
      else if reply.status = 401 then some (s.emit Signal.unauthorizedSignal)
      else some (s.emit Signal.httpSignProcessed)

/-- Function `NetworkClient::createGroup`. -/
def createGroup (env : Env) : Nat → QMap → NetworkClient → Option NetworkClient
  | 0, _, _ => none
  | budget + 1, body, s =>
    let request := createHttpRequest "create/group"
    match setAuthorizationHeader env s request with
    | none => none
    | some (s, _, false) => some (s.emit Signal.unauthorizedSignal)
    | some (s, request, true) =>
      match exchange s (Effect.post request (formContent body)) with
      | none => none
      | some (s, reply) =>
        if reply.transportFailed then createGroup env budget body s
        else if reply.status = 409 then
          some (s.emit (Signal.createGroupError "This group already exists!"))
        else
          some (s.emit (Signal.createGroupProcessed (env.fromJson reply.readAll).toObject))

/-- Function `NetworkClient::findChats`. -/
def findChats (env : Env) : Nat → QMap → NetworkClient → Option NetworkClient
  | 0, _, _ => none
  | budget + 1, body, s =>
    let request := createHttpRequestWithQuery body "api/find"
    match setAuthorizationHeader env s request with
    | none => none
    | some (s, _, false) => some (s.emit Signal.unauthorizedSignal)
    | some (s, request, true) =>
      match exchange s (Effect.get request) with
      | none => none
      | some (s, reply) =>
        if reply.transportFailed then findChats env budget body s
        else some (s.emit (Signal.findChatsProcessed (env.fromJson reply.readAll).toArray))

/-- Function `NetworkClient::getYourChats`. -/
def getYourChats (env : Env) : Nat → NetworkClient → Option NetworkClient
  | 0, _ => none
  | budget + 1, s =>
    let request := createHttpRequest "api/chats"
    match setAuthorizationHeader env s request with
    | none => none
    | some (s, _, false) => some (s.emit Signal.unauthorizedSignal)
    | some (s, request, true) =>
      match exchange s (Effect.get request) with
      | none => none
      | some (s, reply) =>
        if reply.transportFailed then getYourChats env budget s
        else some (s.emit (Signal.getYourChatsProcessed (env.fromJson reply.readAll).toArray))

/-- Function `NetworkClient::getDialogueMessages`. -/
def getDialogueMessages (env : Env) : Nat → QMap → NetworkClient → Option NetworkClient
  | 0, _, _ => none
  | budget + 1, body, s =>
    let request := createHttpRequestWithQuery body "messages/dialogue"
    match setAuthorizationHeader env s request with
    | none => none
    | some (s, _, false) => some (s.emit Signal.unauthorizedSignal)
    | some (s, request, true) =>
      match exchange s (Effect.get request) with
      | none => none
      | some (s, reply) =>
        if reply.transportFailed then getDialogueMessages env budget body s
        else
          some (s.emit (Signal.getDialogueMessagesProcessed
            (env.fromJson reply.readAll).toArray (env.toLongLong (QMap.value body "otherId"))
            (!QMap.containsKey body "lastMessageId")))

/-- Function `NetworkClient::getGroupMessages`. -/
def getGroupMessages (env : Env) : Nat → QMap → NetworkClient → Option NetworkClient
  | 0, _, _ => none
  | budget + 1, body, s =>
    let request := createHttpRequestWithQuery body "messages/group"
    match setAuthorizationHeader env s request with
    | none => none
    | some (s, _, false) => some (s.emit Signal.unauthorizedSignal)
    | some (s, request, true) =>
      match exchange s (Effect.get request) with
      | none => none
      | some (s, reply) =>
        if reply.transportFailed then getGroupMessages env budget body s
        else
          some (s.emit (Signal.getGroupMessagesProcessed
            (env.fromJson reply.readAll).toArray (env.toLongLong (QMap.value body "groupId"))
            (!QMap.containsKey body "lastMessageId")))

/-! ## Auxiliary notions used in the statements -/

/-- The number of connect attempts started (`webSocket->open`). -/
def openAttempts : List Effect → Nat
  | [] => 0
  | Effect.wsOpen _ :: rest => openAttempts rest + 1
  | _ :: rest => openAttempts rest

/-- The number of connect attempts aborted (`webSocket->abort`). -/
def aborts : List Effect → Nat
  | [] => 0
  | Effect.wsAbort :: rest => aborts rest + 1
  | _ :: rest => aborts rest

/-- The part of the client the token gate never touches. -/
def sameSession (s s1 : NetworkClient) : Prop :=
  s1.webSocketConnecting = s.webSocketConnecting ∧
    s1.webSocketConnected = s.webSocketConnected ∧
    s1.pendingWsMessages = s.pendingWsMessages ∧ s1.watchdogs = s.watchdogs ∧
    sentFrames s1.log = sentFrames s.log ∧ emitted s1.log = emitted s.log ∧
    openAttempts s1.log = openAttempts s.log ∧ aborts s1.log = aborts s.log

/-- The flush rule in the words of the specification: while connected, the payloads of
the entries whose age `now - createdAt` is at least 10000 ms, in outbox order; nothing
otherwise. -/
def flushRuleOfSpec (connected : Bool) (now : Int) (outbox : List WsMessage) : List String :=
  if connected then
    (outbox.filter (fun m => decide (now - m.createdAt ≥ 10000))).map WsMessage.message
  else []

/-- The frame carries a correlation id: its object has a member `tempId`. -/
def carriesTempId (data : QJsonObject) : Bool :=
  data.any (fun member => decide (member.1 = "tempId"))

/-- Text of an acknowledgment frame for the id `id-1`. -/
def ackFrame : String := "\x7b\"method\": \"acknowledged\", \"tempId\": \"id-1\"\x7d"

/-- Text of a frame with the method `acknowledged` and no correlation id. -/
def ackFrameWithoutId : String := "\x7b\"method\": \"acknowledged\"\x7d"

/-- Text of a frame that is not an acknowledgment. -/
def chatFrame : String := "\x7b\"method\": \"message\", \"text\": \"hi\"\x7d"

/-- Text of a frame without a `method` member. -/
def plainFrame : String := "\x7b\"text\": \"hi\"\x7d"

/-- Text of a response body that carries a token pair. -/
def tokenBody : String := "\x7b\"access\": \"fresh\", \"refresh\": \"r2\"\x7d"

/-- The decoding of the sample texts; any other text is taken as no JSON. -/
def sampleFromJson (text : String) : QJsonDocument :=
  if text = ackFrame then
    QJsonDocument.object
      [("method", QJsonValue.string "acknowledged"), ("tempId", QJsonValue.string "id-1")]
  else if text = ackFrameWithoutId then
    QJsonDocument.object [("method", QJsonValue.string "acknowledged")]
  else if text = chatFrame then
    QJsonDocument.object
      [("method", QJsonValue.string "message"), ("text", QJsonValue.string "hi")]
  else if text = plainFrame then
    QJsonDocument.object [("text", QJsonValue.string "hi")]
  else if text = tokenBody then
    QJsonDocument.object
      [("access", QJsonValue.string "fresh"), ("refresh", QJsonValue.string "r2")]
  else QJsonDocument.null

/-- Sample surroundings: the decoder above, and a token store that reports exactly the
access token `stale` as expired. -/
def sampleEnv : Env :=
  { fromJson := sampleFromJson
    toLongLong := fun _ => 0
    isAccessTokenExpired := fun tokens => decide (tokens.accessToken = "stale") }

/-- A freshly initialized client holding a valid access token, with no transport replies
scripted. -/
def sampleClient : NetworkClient :=
  initializeClient { accessToken := "valid", refreshToken := "r" } []

/-- A connected client with two pending messages. -/
def sampleConnected : NetworkClient :=
  { sampleClient with
      webSocketConnected := true
      pendingWsMessages :=
        [{ createdAt := 0, message := "first", tempId := "id-1" },
         { createdAt := 5000, message := "second", tempId := "id-2" }] }

/-- Events following a submit in the sample run: the session connects, a flush tick,
a chat frame, an acknowledgment for another message, a disconnect, the watchdog of the
new attempt, and another submit. -/
def sampleEvents : List Event :=
  [Event.webSocketConnectedSlot, Event.sendPendingWsMessages 20000,
   Event.webSocketMessageReceivedSlot chatFrame, Event.webSocketMessageReceivedSlot ackFrame,
   Event.webSocketDisconnected, Event.watchdogExpired, Event.sendMessage "bye" 30000 "id-1"]

/-- The client after a request has been handed to the transport and its reply taken from
the script, `rest` being the replies left. -/
def afterExchange (s : NetworkClient) (request : Effect) (rest : List QNetworkReply) :
    NetworkClient :=
  { s with replies := rest, log := s.log ++ [request] }

/-- The request of the refresh exchange the token gate starts from the state `s`. -/
def refreshRequest (s : NetworkClient) : Effect :=
  Effect.post (createHttpRequest "sign/refresh")
    (formContent [("refresh", s.authorizationManager.refreshToken)])

/-- The access token carried by a refresh response, as `refresh` reads it. -/
def accessOf (env : Env) (reply : QNetworkReply) : String :=
  (QJsonObject.value (env.fromJson reply.readAll).toObject "access").toStr

/-- A reply that failed with host-not-found before any byte arrived. -/
def hostNotFound : QNetworkReply :=
  { error := NetworkError.HostNotFoundError, status := 0, chunks := [] }

/-- A refresh response with status 401. -/
def unauthorizedReply : QNetworkReply :=
  { error := NetworkError.UnknownNetworkError, status := 401, chunks := [] }

/-- A response with status 200 whose body is the sample token pair. -/
def tokenReply : QNetworkReply :=
  { error := NetworkError.NoError, status := 200, chunks := [tokenBody] }

/-- A client whose access token the sample token store reports as expired, with the
given transport script. -/
def staleClient (replies : List QNetworkReply) : NetworkClient :=
  initializeClient { accessToken := "stale", refreshToken := "r" } replies

/-- Whitespace removed from both ends of a text, the inside left as it is. -/
def trimmed (s : String) : String :=
  ⟨((s.data.dropWhile isSpace).reverse.dropWhile isSpace).reverse⟩

/-- The status text in the words of the specification: the chunk with the `data:` marker
and the whitespace at both ends removed. -/
def statusTextOfSpec (chunk : String) : String :=
  trimmed (replace "data:" "" chunk)

/-- The classification of a status text in the words of the specification: the error
reported for it, `none` for success. -/
def signErrorOfSpec (status : String) : Option String :=
  if status = "Not Found" then some "User not found!"
  else if status = "Forbidden" then some "Wrong password!"
  else if status = "Conflict" then some "User already exists!"
  else if status = "Unprocessable Entity" then some "Something went wrong, try again!"
  else none

/-- A sign-in response whose first chunk is `first`, followed by the sample token pair. -/
def signReply (first : String) : QNetworkReply :=
  { error := NetworkError.NoError, status := 200, chunks := [first, tokenBody] }

/-- A freshly initialized client with the given transport script. -/
def clientWith (replies : List QNetworkReply) : NetworkClient :=
  initializeClient { accessToken := "valid", refreshToken := "r" } replies

/-! ## Basic facts -/

theorem sentFrames_append (xs ys : List Effect) :
    sentFrames (xs ++ ys) = sentFrames xs ++ sentFrames ys := by
  induction xs with
  | nil => rfl
  | cons x xs ih => cases x <;> simp [sentFrames, ih]

theorem openAttempts_append (xs ys : List Effect) :
    openAttempts (xs ++ ys) = openAttempts xs + openAttempts ys := by
  induction xs with
  | nil => simp [openAttempts]
  | cons x xs ih =>
    cases x <;> simp [openAttempts, ih]
    omega

theorem aborts_append (xs ys : List Effect) :
    aborts (xs ++ ys) = aborts xs + aborts ys := by
  induction xs with
  | nil => simp [aborts]
  | cons x xs ih =>
    cases x <;> simp [aborts, ih]
    omega

theorem emitted_append (xs ys : List Effect) :
    emitted (xs ++ ys) = emitted xs ++ emitted ys := by
  induction xs with
  | nil => rfl
  | cons x xs ih => cases x <;> simp [emitted, ih]

theorem value_of_not_containsKey :
    ∀ (o : QJsonObject) (key : String), QJsonObject.containsKey o key = false →
      QJsonObject.value o key = QJsonValue.undefined := by
  intro o key
  induction o with
  | nil => intro _; rfl
  | cons member rest ih =>
    obtain ⟨k, v⟩ := member
    intro h
    simp only [QJsonObject.containsKey, Bool.or_eq_false_iff, decide_eq_false_iff_not] at h
    simp only [QJsonObject.value, if_neg h.1]
    exact ih h.2

theorem value_insertNull_self :
    ∀ (o : QJsonObject) (key : String), QJsonObject.containsKey o key = false →
      QJsonObject.value (QJsonObject.insertNull o key) key = QJsonValue.null := by
  intro o key
  induction o with
  | nil => intro _; simp [QJsonObject.insertNull, QJsonObject.value]
  | cons member rest ih =>
    obtain ⟨k, v⟩ := member
    intro h
    simp only [QJsonObject.containsKey, Bool.or_eq_false_iff, decide_eq_false_iff_not] at h
    unfold QJsonObject.insertNull
    split
    · simp [QJsonObject.value]
    · simp only [QJsonObject.value, if_neg h.1]
      exact ih h.2

theorem value_insertNull_other (key other : String) (hne : key ≠ other) :
    ∀ (o : QJsonObject),
      QJsonObject.value (QJsonObject.insertNull o key) other = QJsonObject.value o other := by
  intro o
  induction o with
  | nil => simp [QJsonObject.insertNull, QJsonObject.value, hne]
  | cons member rest ih =>
    obtain ⟨k, v⟩ := member
    unfold QJsonObject.insertNull
    split
    · simp [QJsonObject.value, hne]
    · simp only [QJsonObject.value, ih]

theorem insertNull_perm (key : String) :
    ∀ (o : QJsonObject),
      (QJsonObject.insertNull o key).Perm ((key, QJsonValue.null) :: o) := by
  intro o
  induction o with
  | nil => exact List.Perm.refl _
  | cons member rest ih =>
    obtain ⟨k, v⟩ := member
    unfold QJsonObject.insertNull
    split
    · exact List.Perm.refl _
    · exact (List.Perm.cons _ ih).trans (List.Perm.swap _ _ _)

theorem equalsString_value_referenced (o : QJsonObject) (key text : String) :
    (QJsonObject.value (QJsonObject.referenced o key) key).equalsString text =
      (QJsonObject.value o key).equalsString text := by
  unfold QJsonObject.referenced
  cases h : QJsonObject.containsKey o key
  · simp only [Bool.false_eq_true, if_false]
    rw [value_insertNull_self o key h, value_of_not_containsKey o key h]
    rfl
  · simp

theorem toStr_value_referenced (o : QJsonObject) (key : String) :
    (QJsonObject.value (QJsonObject.referenced o key) key).toStr =
      (QJsonObject.value o key).toStr := by
  unfold QJsonObject.referenced
  cases h : QJsonObject.containsKey o key
  · simp only [Bool.false_eq_true, if_false]
    rw [value_insertNull_self o key h, value_of_not_containsKey o key h]
    rfl
  · simp

theorem value_referenced_other (o : QJsonObject) (key other : String) (hne : key ≠ other) :
    QJsonObject.value (QJsonObject.referenced o key) other = QJsonObject.value o other := by
  unfold QJsonObject.referenced
  split
  · rfl
  · exact value_insertNull_other key other hne o

/-- The two branches of `webSocketMessageReceivedSlot` in terms of the decoded object. -/
theorem webSocketMessageReceivedSlot_eq (env : Env) (s : NetworkClient) (message : String) :
    webSocketMessageReceivedSlot env s message =
      (if (QJsonObject.value (env.fromJson message).toObject "method").equalsString
          "acknowledged" then
        { s with
            pendingWsMessages :=
              removeAcknowledged
                (QJsonObject.value (env.fromJson message).toObject "tempId").toStr
                s.pendingWsMessages }
      else
        s.emit (Signal.webSocketMessageReceived
          (QJsonObject.referenced (env.fromJson message).toObject "method"))) := by
  unfold webSocketMessageReceivedSlot
  simp only [equalsString_value_referenced, toStr_value_referenced]
  rw [value_referenced_other _ "method" "tempId" (by decide)]

theorem exchange_eq_some {s s1 : NetworkClient} {request : Effect} {reply : QNetworkReply}
    (h : exchange s request = some (s1, reply)) :
    ∃ rest, s.replies = reply :: rest ∧
      s1 = { s with replies := rest, log := s.log ++ [request] } := by
  unfold exchange at h
  split at h
  · simp at h
  · rename_i r rest hr
    simp at h
    exact ⟨rest, by rw [hr, h.2], h.1.symm⟩

theorem refresh_sameSession {env : Env} {s s1 : NetworkClient} {body : QMap} {ok : Bool}
    (h : refresh env s body = some (s1, ok)) : sameSession s s1 := by
  unfold refresh at h
  dsimp only at h
  split at h
  · simp at h
  · rename_i s2 reply hx
    obtain ⟨rest, -, rfl⟩ := exchange_eq_some hx
    split at h
    · simp at h; obtain ⟨rfl, -⟩ := h
      simp [sameSession, sentFrames_append, emitted_append, sentFrames, emitted,
          openAttempts_append, aborts_append, openAttempts, aborts]
    · split at h
      · simp at h; obtain ⟨rfl, -⟩ := h
        simp [sameSession, sentFrames_append, emitted_append, sentFrames, emitted,
          openAttempts_append, aborts_append, openAttempts, aborts]
      · simp at h; obtain ⟨rfl, -⟩ := h
        simp [sameSession, sentFrames_append, emitted_append, sentFrames, emitted,
          openAttempts_append, aborts_append, openAttempts, aborts]

theorem setAuthorizationHeader_sameSession {env : Env} {s s1 : NetworkClient}
    {request request1 : QNetworkRequest} {ok : Bool}
    (h : setAuthorizationHeader env s request = some (s1, request1, ok)) :
    sameSession s s1 := by
  unfold setAuthorizationHeader at h
  split at h
  · dsimp only at h
    split at h
    · simp at h
    · rename_i s2 hr
      simp at h; obtain ⟨rfl, -, -⟩ := h
      exact refresh_sameSession hr
    · rename_i s2 hr
      simp at h; obtain ⟨rfl, -, -⟩ := h
      exact refresh_sameSession hr
  · simp at h; obtain ⟨rfl, -, -⟩ := h
    simp [sameSession]

theorem connectWebSocket_eq_some {env : Env} {s s1 : NetworkClient}
    (h : connectWebSocket env s = some s1) :
    s1.webSocketConnecting = true ∧ s1.webSocketConnected = s.webSocketConnected ∧
      s1.pendingWsMessages = s.pendingWsMessages ∧ s1.watchdogs = s.watchdogs + 1 ∧
      sentFrames s1.log = sentFrames s.log ∧ emitted s1.log = emitted s.log ∧
      openAttempts s1.log = openAttempts s.log + 1 ∧ aborts s1.log = aborts s.log := by
  unfold connectWebSocket beginConnect connectRequest at h
  dsimp only at h
  split at h
  · simp at h
  · rename_i s2 request ok hg
    obtain ⟨h1, h2, h3, h4, h5, h6, h7, h8⟩ := setAuthorizationHeader_sameSession hg
    simp at h
    subst h
    simp [sentFrames_append, emitted_append, sentFrames, emitted, openAttempts_append,
      aborts_append, openAttempts, aborts] at *
    exact ⟨h1, h2, h3, h4, h5, h6, h7, h8⟩

theorem mem_removeAcknowledged {m : WsMessage} {tempId : String} (hne : m.tempId ≠ tempId) :
    ∀ {outbox : List WsMessage}, m ∈ outbox → m ∈ removeAcknowledged tempId outbox := by
  intro outbox
  induction outbox with
  | nil => intro h; cases h
  | cons x xs ih =>
    intro h
    unfold removeAcknowledged
    split
    · rename_i hx
      rcases List.mem_cons.1 h with rfl | h
      · exact absurd hx hne
      · exact h
    · rcases List.mem_cons.1 h with rfl | h
      · exact List.mem_cons_self _ _
      · exact List.mem_cons_of_mem _ (ih h)

theorem step_keeps_pending {env : Env} {s s1 : NetworkClient} {e : Event} {m : WsMessage}
    (hstep : step env s e = some s1) (hack : Event.acknowledges env m.tempId e = false)
    (hm : m ∈ s.pendingWsMessages) : m ∈ s1.pendingWsMessages := by
  cases e with
  | sendMessage message msecs uuid =>
    simp only [step, Option.some.injEq] at hstep
    subst hstep
    unfold sendMessage
    dsimp only
    split <;> simp [hm]
  | sendPendingWsMessages msecs =>
    simp only [step, Option.some.injEq] at hstep
    subst hstep
    simpa [sendPendingWsMessages] using hm
  | connectWebSocket =>
    simp only [step] at hstep
    rw [(connectWebSocket_eq_some hstep).2.2.1]
    exact hm
  | webSocketConnectedSlot =>
    simp only [step, Option.some.injEq] at hstep
    subst hstep
    simpa [webSocketConnectedSlot, NetworkClient.emit] using hm
  | webSocketDisconnected =>
    simp only [step, webSocketDisconnected] at hstep
    split at hstep
    · rw [(connectWebSocket_eq_some hstep).2.2.1]
      simpa [NetworkClient.emit] using hm
    · simp only [Option.some.injEq] at hstep
      subst hstep
      simpa [NetworkClient.emit] using hm
  | webSocketMessageReceivedSlot message =>
    simp only [step, Option.some.injEq] at hstep
    subst hstep
    simp only [Event.acknowledges, acknowledges, Bool.and_eq_false_imp,
      decide_eq_false_iff_not] at hack
    rw [webSocketMessageReceivedSlot_eq]
    split
    · rename_i hmeth
      exact mem_removeAcknowledged (fun h => hack hmeth h.symm) hm
    · simpa [NetworkClient.emit] using hm
  | watchdogExpired =>
    simp only [step, watchdogExpired] at hstep
    split at hstep
    · simp at hstep
    · split at hstep
      · rw [(connectWebSocket_eq_some hstep).2.2.1]
        exact hm
      · simp only [Option.some.injEq] at hstep
        subst hstep
        exact hm

theorem run_keeps_pending {env : Env} {m : WsMessage} :
    ∀ (events : List Event) {s s1 : NetworkClient}, run env s events = some s1 →
      (∀ e ∈ events, Event.acknowledges env m.tempId e = false) →
      m ∈ s.pendingWsMessages → m ∈ s1.pendingWsMessages := by
  intro events
  induction events with
  | nil =>
    intro s s1 hrun _ hm
    simp only [run, Option.some.injEq] at hrun
    subst hrun
    exact hm
  | cons e rest ih =>
    intro s s1 hrun hack hm
    simp only [run] at hrun
    split at hrun
    · simp at hrun
    · rename_i s2 hstep
      exact ih hrun (fun e1 he1 => hack e1 (List.mem_cons_of_mem _ he1))
        (step_keeps_pending hstep (hack e (List.mem_cons_self _ _)) hm)

theorem mem_pending_sendMessage (s : NetworkClient) (payload : String) (msecs : Int)
    (uuid : String) :
    newWsMessage payload msecs uuid ∈ (sendMessage s payload msecs uuid).pendingWsMessages := by
  unfold sendMessage
  dsimp only
  split <;> simp

theorem removeAcknowledged_of_no_match {tempId : String} :
    ∀ {outbox : List WsMessage}, (∀ x ∈ outbox, x.tempId ≠ tempId) →
      removeAcknowledged tempId outbox = outbox := by
  intro outbox
  induction outbox with
  | nil => intro _; rfl
  | cons x xs ih =>
    intro h
    unfold removeAcknowledged
    rw [if_neg (h x (List.mem_cons_self _ _)),
      ih (fun y hy => h y (List.mem_cons_of_mem _ hy))]

theorem filter_of_no_match {tempId : String} :
    ∀ {outbox : List WsMessage}, (∀ x ∈ outbox, x.tempId ≠ tempId) →
      outbox.filter (fun x => decide (x.tempId ≠ tempId)) = outbox := by
  intro outbox h
  apply List.filter_eq_self.2
  intro x hx
  simpa using h x hx

theorem removeAcknowledged_eq_filter (tempId : String) :
    ∀ {outbox : List WsMessage}, (outbox.map WsMessage.tempId).Nodup →
      removeAcknowledged tempId outbox = outbox.filter (fun x => decide (x.tempId ≠ tempId)) := by
  intro outbox
  induction outbox with
  | nil => intro _; rfl
  | cons x xs ih =>
    intro hnd
    rw [List.map_cons, List.nodup_cons] at hnd
    unfold removeAcknowledged
    by_cases hx : x.tempId = tempId
    · have hrest : ∀ y ∈ xs, y.tempId ≠ tempId := by
        intro y hy hy2
        exact hnd.1 (List.mem_map.2 ⟨y, hy, by rw [hy2, hx]⟩)
      rw [if_pos hx, List.filter_cons_of_neg (by simpa using hx), filter_of_no_match hrest]
    · rw [if_neg hx, List.filter_cons_of_pos (by simpa using hx), ih hnd.2]

theorem length_removeAcknowledged {tempId : String} :
    ∀ {outbox : List WsMessage}, (∃ x ∈ outbox, x.tempId = tempId) →
      (removeAcknowledged tempId outbox).length + 1 = outbox.length := by
  intro outbox
  induction outbox with
  | nil => rintro ⟨x, hx, -⟩; cases hx
  | cons y ys ih =>
    rintro ⟨x, hx, hxt⟩
    unfold removeAcknowledged
    by_cases hy : y.tempId = tempId
    · rw [if_pos hy, List.length_cons]
    · rw [if_neg hy, List.length_cons, List.length_cons]
      rcases List.mem_cons.1 hx with rfl | hx
      · exact absurd hxt hy
      · rw [ih ⟨x, hx, hxt⟩]

theorem resendLoop_eq (connected : Bool) (msecs : Int) (outbox : List WsMessage) :
    resendLoop connected msecs outbox =
      if connected then
        (outbox.filter (fun m => decide (msecs - m.createdAt > 10000))).map
          (fun m => Effect.sendTextMessage m.message)
      else [] := by
  induction outbox with
  | nil => cases connected <;> rfl
  | cons x xs ih =>
    unfold resendLoop
    rw [ih]
    cases connected
    · simp
    · by_cases hx : x.createdAt + 10000 < msecs
      · have hx2 : msecs - x.createdAt > 10000 := by omega
        simp [hx, hx2]
      · have hx2 : ¬ msecs - x.createdAt > 10000 := by omega
        simp [hx, hx2]

theorem sentFrames_map_send (outbox : List WsMessage) :
    sentFrames (outbox.map (fun m => Effect.sendTextMessage m.message)) =
      outbox.map WsMessage.message := by
  induction outbox with
  | nil => rfl
  | cons x xs ih => simp [sentFrames, ih]

theorem flush_rule_frames (s : NetworkClient) (now : Int) :
    sentFrames (sendPendingWsMessages s now).log =
      sentFrames s.log ++ (if s.webSocketConnected then
        (s.pendingWsMessages.filter (fun m => decide (now - m.createdAt > 10000))).map
          WsMessage.message
        else []) := by
  simp only [sendPendingWsMessages, resendLoop_eq, sentFrames_append]
  cases s.webSocketConnected
  · simp [sentFrames]
  · simp [sentFrames_map_send]

theorem refresh_of_reply (env : Env) (s : NetworkClient) (body : QMap) (reply : QNetworkReply)
    (rest : List QNetworkReply) (hreplies : s.replies = reply :: rest) :
    refresh env s body =
      if reply.transportFailed then
        some (afterExchange s (Effect.post (createHttpRequest "sign/refresh")
          (formContent body)) rest, true)
      else if reply.status = 401 then
        some (afterExchange s (Effect.post (createHttpRequest "sign/refresh")
          (formContent body)) rest, false)
      else
        some ({ s with
                  replies := rest
                  authorizationManager :=
                    { s.authorizationManager with accessToken := accessOf env reply }
                  log := s.log ++ [Effect.post (createHttpRequest "sign/refresh")
                    (formContent body), Effect.setAccessToken (accessOf env reply)] }, true) := by
  unfold refresh exchange
  rw [hreplies]
  dsimp only
  split
  · rfl
  · split
    · rfl
    · simp [accessOf]

theorem setAuthorizationHeader_rejected (env : Env) (s : NetworkClient)
    (request : QNetworkRequest) (reply : QNetworkReply) (rest : List QNetworkReply)
    (hexpired : env.isAccessTokenExpired s.authorizationManager = true)
    (hreplies : s.replies = reply :: rest) (hanswered : reply.transportFailed = false)
    (h401 : reply.status = 401) :
    setAuthorizationHeader env s request =
      some (afterExchange s (refreshRequest s) rest, request, false) := by
  unfold setAuthorizationHeader
  rw [if_pos hexpired]
  dsimp only
  rw [refresh_of_reply env s _ reply rest hreplies, hanswered, if_neg (by simp), if_pos h401]
  rfl

theorem foldl_signReadyRead_checked (later : List String) :
    ∀ (ctx : SignContext) (s : NetworkClient), ctx.statusChecked = true →
      later.foldl signReadyRead (ctx, s) =
        ({ ctx with dataAsArray := later.foldl (fun r c => r ++ c) ctx.dataAsArray }, s) := by
  induction later with
  | nil => intro ctx s _; rfl
  | cons c cs ih =>
    intro ctx s h
    rw [List.foldl_cons]
    have hstep : signReadyRead (ctx, s) c =
        ({ ctx with dataAsArray := ctx.dataAsArray ++ c }, s) := by
      unfold signReadyRead
      simp [h]
    rw [hstep, ih { ctx with dataAsArray := ctx.dataAsArray ++ c } s h]
    rfl

theorem signReadyRead_first (s : NetworkClient) (first : String) :
    signReadyRead (SignContext.fresh, s) first =
      match signErrorOfSpec (signStatus first) with
      | some text =>
        ({ SignContext.fresh with statusChecked := true }, s.emit (Signal.httpSignError text))
      | none =>
        ({ success := true, statusChecked := true, dataAsArray := "" },
          s.emit Signal.shouldConfirmEmailSignal) := by
  unfold signReadyRead signErrorOfSpec
  simp only [SignContext.fresh, Bool.not_false, if_true]
  split
  · rfl
  · split
    · rfl
    · split
      · rfl
      · split
        · rfl
        · rfl

/-! ## Outbox: no silent loss -/

/-- C1: the entry created by `sendMessage` is in `pendingWsMessages` right after the call,
whatever the state of the session, and in every state the client reaches afterwards by
further `sendMessage` calls, flush ticks, connect attempts, watchdog expiries,
connect/disconnect events and inbound frames, as long as no inbound frame is an
acknowledgment whose `tempId` is the id of the entry. -/
theorem sendMessage_no_silent_loss (env : Env) (s : NetworkClient) (payload : String)
    (msecs : Int) (uuid : String) (events : List Event) (s1 : NetworkClient)
    (hack : ∀ e ∈ events, Event.acknowledges env uuid e = false)
    (hrun : run env (sendMessage s payload msecs uuid) events = some s1) :
    newWsMessage payload msecs uuid ∈ (sendMessage s payload msecs uuid).pendingWsMessages ∧
      newWsMessage payload msecs uuid ∈ s1.pendingWsMessages :=
  ⟨mem_pending_sendMessage s payload msecs uuid,
    run_keeps_pending events hrun hack (mem_pending_sendMessage s payload msecs uuid)⟩

/-- Witness for C1: a message submitted while disconnected survives a run in which the
session connects, flushes, receives a chat frame and the acknowledgment of another
message, disconnects and reconnects. -/
theorem sendMessage_no_silent_loss_witness :
    ∃ s1, run sampleEnv (sendMessage sampleClient "hello" 7 "id-9") sampleEvents = some s1 ∧
      newWsMessage "hello" 7 "id-9" ∈ s1.pendingWsMessages :=
  ⟨_, rfl, (sendMessage_no_silent_loss sampleEnv sampleClient "hello" 7 "id-9" sampleEvents _
    (by decide) rfl).2⟩

/-! ## Inbound frames -/

/-- C2, counterexample: a frame with the method `acknowledged` and no `tempId` member is
not an acknowledgment carrying a correlation id, yet nothing is forwarded for it; and a
frame without a `method` member is forwarded with an object that is not its decoded
content: reading `data["method"]` has added the member `method: null` to it. -/
theorem inbound_frame_routing_differs :
    (QJsonObject.value (sampleEnv.fromJson ackFrameWithoutId).toObject
        "method").equalsString "acknowledged" = true ∧
      carriesTempId (sampleEnv.fromJson ackFrameWithoutId).toObject = false ∧
      (webSocketMessageReceivedSlot sampleEnv sampleConnected ackFrameWithoutId).log =
        sampleConnected.log ∧
      (sampleEnv.fromJson plainFrame).toObject = [("text", QJsonValue.string "hi")] ∧
      (webSocketMessageReceivedSlot sampleEnv sampleConnected plainFrame).log =
        sampleConnected.log ++ [Effect.emit (Signal.webSocketMessageReceived
          [("method", QJsonValue.null), ("text", QJsonValue.string "hi")])] :=
  ⟨by decide, by decide, rfl, rfl, rfl⟩

/-- C2, amended: an inbound frame is swallowed (no signal is emitted for it) exactly when
its decoded object has the method `acknowledged`, with or without a `tempId`; any other
frame is forwarded exactly once, as the one signal `webSocketMessageReceived`, and leaves
the outbox unchanged.  The object forwarded is the decoded object as the lookup
`data["method"]` leaves it: the decoded object itself when it has a `method` member, and
the decoded object with the one member `method: null` added when it has none. -/
theorem inbound_frame_routing (env : Env) (s : NetworkClient) (message : String) :
    (emitted (webSocketMessageReceivedSlot env s message).log = emitted s.log ↔
        (QJsonObject.value (env.fromJson message).toObject "method").equalsString
          "acknowledged" = true) ∧
      ((QJsonObject.value (env.fromJson message).toObject "method").equalsString
          "acknowledged" = false →
        (webSocketMessageReceivedSlot env s message).log =
            s.log ++ [Effect.emit (Signal.webSocketMessageReceived
              (QJsonObject.referenced (env.fromJson message).toObject "method"))] ∧
          (webSocketMessageReceivedSlot env s message).pendingWsMessages =
            s.pendingWsMessages) ∧
      (QJsonObject.containsKey (env.fromJson message).toObject "method" = true →
        QJsonObject.referenced (env.fromJson message).toObject "method" =
          (env.fromJson message).toObject) ∧
      (QJsonObject.containsKey (env.fromJson message).toObject "method" = false →
        (QJsonObject.referenced (env.fromJson message).toObject "method").Perm
          (("method", QJsonValue.null) :: (env.fromJson message).toObject)) := by
  rw [webSocketMessageReceivedSlot_eq]
  refine ⟨?_, ?_, ?_, ?_⟩
  · cases h : (QJsonObject.value (env.fromJson message).toObject "method").equalsString
      "acknowledged"
    · simp only [Bool.false_eq_true, if_false, iff_false, NetworkClient.emit]
      intro hlen
      have := congrArg List.length hlen
      simp [emitted_append, emitted] at this
    · simp
  · intro h
    rw [h]
    exact ⟨rfl, rfl⟩
  · intro h
    unfold QJsonObject.referenced
    rw [if_pos h]
  · intro h
    unfold QJsonObject.referenced
    rw [h]
    exact insertNull_perm "method" _

/-- Witness for C2: the sample chat frame is forwarded once with its decoded object, the
sample frame without a method is forwarded with the null member added, and the sample
acknowledgment is swallowed. -/
theorem inbound_frame_routing_witness :
    (webSocketMessageReceivedSlot sampleEnv sampleConnected chatFrame).log =
        sampleConnected.log ++ [Effect.emit
          (Signal.webSocketMessageReceived (sampleEnv.fromJson chatFrame).toObject)] ∧
      (QJsonObject.referenced (sampleEnv.fromJson plainFrame).toObject "method").Perm
        (("method", QJsonValue.null) :: (sampleEnv.fromJson plainFrame).toObject) ∧
      emitted (webSocketMessageReceivedSlot sampleEnv sampleConnected ackFrame).log =
        emitted sampleConnected.log :=
  ⟨((inbound_frame_routing sampleEnv sampleConnected chatFrame).2.1 (by decide)).1,
    (inbound_frame_routing sampleEnv sampleConnected plainFrame).2.2.2 (by decide),
    (inbound_frame_routing sampleEnv sampleConnected ackFrame).1.2 (by decide)⟩

/-! ## Acknowledgments -/

/-- C3: in an outbox whose correlation ids are pairwise distinct, an acknowledgment for
the id of a pending message `m` removes exactly `m`: the outbox becomes the old one without
the entry of that id, the others in their old order, one entry shorter, and `m` is gone;
the same acknowledgment processed again changes nothing; and an acknowledgment whose id
matches no entry changes nothing. Nothing is emitted for an acknowledgment. -/
theorem acknowledgment_round_trip (env : Env) (s : NetworkClient) (m : WsMessage)
    (ack : String)
    (hdistinct : (s.pendingWsMessages.map WsMessage.tempId).Nodup)
    (hm : m ∈ s.pendingWsMessages)
    (hack : acknowledges env ack m.tempId = true) :
    (webSocketMessageReceivedSlot env s ack).pendingWsMessages =
        s.pendingWsMessages.filter (fun x => decide (x.tempId ≠ m.tempId)) ∧
      (webSocketMessageReceivedSlot env s ack).pendingWsMessages.length + 1 =
        s.pendingWsMessages.length ∧
      m ∉ (webSocketMessageReceivedSlot env s ack).pendingWsMessages ∧
      (∀ x ∈ s.pendingWsMessages, x ≠ m →
        x ∈ (webSocketMessageReceivedSlot env s ack).pendingWsMessages) ∧
      (webSocketMessageReceivedSlot env (webSocketMessageReceivedSlot env s ack)
          ack).pendingWsMessages =
        (webSocketMessageReceivedSlot env s ack).pendingWsMessages ∧
      (webSocketMessageReceivedSlot env s ack).log = s.log ∧
      (∀ (other tempId : String), acknowledges env other tempId = true →
        (∀ x ∈ s.pendingWsMessages, x.tempId ≠ tempId) →
        (webSocketMessageReceivedSlot env s other).pendingWsMessages =
          s.pendingWsMessages) := by
  have slot_ack : ∀ (t : NetworkClient) (frame tempId : String),
      acknowledges env frame tempId = true →
      webSocketMessageReceivedSlot env t frame =
        { t with pendingWsMessages := removeAcknowledged tempId t.pendingWsMessages } := by
    intro t frame tempId h
    simp only [acknowledges, Bool.and_eq_true, decide_eq_true_eq] at h
    rw [webSocketMessageReceivedSlot_eq, if_pos h.1, h.2]
  have hfilter := removeAcknowledged_eq_filter m.tempId hdistinct
  have hgone : m ∉ removeAcknowledged m.tempId s.pendingWsMessages := by
    rw [hfilter]
    simp
  rw [slot_ack _ _ _ hack]
  refine ⟨hfilter, length_removeAcknowledged ⟨m, hm, rfl⟩, hgone, ?_, ?_, rfl, ?_⟩
  · intro x hx hne
    show x ∈ removeAcknowledged m.tempId s.pendingWsMessages
    rw [hfilter]
    refine List.mem_filter.2 ⟨hx, ?_⟩
    have hid : x.tempId ≠ m.tempId := by
      intro hid
      exact hne (List.inj_on_of_nodup_map hdistinct hx hm hid)
    simpa using hid
  · rw [slot_ack _ _ _ hack]
    show removeAcknowledged m.tempId (removeAcknowledged m.tempId s.pendingWsMessages) =
      removeAcknowledged m.tempId s.pendingWsMessages
    apply removeAcknowledged_of_no_match
    intro x hx
    rw [hfilter] at hx
    simpa using (List.mem_filter.1 hx).2
  · intro other tempId hother hnone
    rw [slot_ack _ _ _ hother]
    show removeAcknowledged tempId s.pendingWsMessages = s.pendingWsMessages
    exact removeAcknowledged_of_no_match hnone

/-- Witness for C3: the acknowledgment for `id-1` on the sample outbox of two messages. -/
theorem acknowledgment_round_trip_witness :
    (webSocketMessageReceivedSlot sampleEnv sampleConnected ackFrame).pendingWsMessages =
      [{ createdAt := 5000, message := "second", tempId := "id-2" }] :=
  (acknowledgment_round_trip sampleEnv sampleConnected
    { createdAt := 0, message := "first", tempId := "id-1" } ackFrame
    (by decide) (by decide) (by decide)).1

/-! ## Flush -/

/-- C4, counterexample: at the tick of time 10000 the sample message created at time 0
has age 10000, so the rule of the specification resends it, but the tick sends nothing. -/
theorem flush_skips_age_10000 :
    flushRuleOfSpec sampleConnected.webSocketConnected 10000
        sampleConnected.pendingWsMessages = ["first"] ∧
      sentFrames (sendPendingWsMessages sampleConnected 10000).log =
        sentFrames sampleConnected.log :=
  ⟨by decide, by decide⟩

/-- C4, amended: what one flush tick at time `now` does is to send, when connected, the
payloads of the pending messages with `now - createdAt > 10000` (strictly older than
10000 ms), in outbox order, and nothing else; when not connected it does nothing; the
outbox is unchanged in both cases. -/
theorem flush_rule (s : NetworkClient) (now : Int) :
    (sendPendingWsMessages s now).log =
        s.log ++ (if s.webSocketConnected then
          (s.pendingWsMessages.filter (fun m => decide (now - m.createdAt > 10000))).map
            (fun m => Effect.sendTextMessage m.message)
          else []) ∧
      sentFrames (sendPendingWsMessages s now).log =
        sentFrames s.log ++ (if s.webSocketConnected then
          (s.pendingWsMessages.filter (fun m => decide (now - m.createdAt > 10000))).map
            WsMessage.message
          else []) ∧
      (sendPendingWsMessages s now).pendingWsMessages = s.pendingWsMessages := by
  refine ⟨?_, flush_rule_frames s now, rfl⟩
  simp only [sendPendingWsMessages, resendLoop_eq]

/-- C5, counterexample: a message is submitted at time 3000 while disconnected, the
session connects, and the first flush tick after the submit fires at time 10000 while
connected with the message pending; the tick sends nothing. -/
theorem first_tick_after_submit_sends_nothing :
    sampleClient.webSocketConnected = false ∧
      (webSocketConnectedSlot (sendMessage sampleClient "hello" 3000 "id-9")).webSocketConnected
        = true ∧
      newWsMessage "hello" 3000 "id-9" ∈
        (webSocketConnectedSlot
          (sendMessage sampleClient "hello" 3000 "id-9")).pendingWsMessages ∧
      sentFrames (sendPendingWsMessages
        (webSocketConnectedSlot (sendMessage sampleClient "hello" 3000 "id-9")) 10000).log = [] :=
  ⟨rfl, rfl, by decide, by decide⟩

/-- C5, amended: a message submitted while the session is not connected is appended to the
outbox and nothing is sent; `webSocketConnectedSlot` sends nothing and leaves the outbox
as it is; and a flush tick at time `now` that finds the session connected right after
sends, after the older entries due, the new message exactly when more than 10000 ms have
passed since the submit (`msecs + 10000 < now`): not at a tick within 10000 ms of the
submit, and at every later tick. -/
theorem submit_while_disconnected (s : NetworkClient) (payload : String) (msecs : Int)
    (uuid : String) (now : Int) (hdisconnected : s.webSocketConnected = false) :
    (sendMessage s payload msecs uuid).pendingWsMessages =
        s.pendingWsMessages ++ [newWsMessage payload msecs uuid] ∧
      (sendMessage s payload msecs uuid).log = s.log ∧
      (webSocketConnectedSlot (sendMessage s payload msecs uuid)).webSocketConnected = true ∧
      (webSocketConnectedSlot (sendMessage s payload msecs uuid)).pendingWsMessages =
        s.pendingWsMessages ++ [newWsMessage payload msecs uuid] ∧
      sentFrames (webSocketConnectedSlot (sendMessage s payload msecs uuid)).log =
        sentFrames s.log ∧
      sentFrames (sendPendingWsMessages
          (webSocketConnectedSlot (sendMessage s payload msecs uuid)) now).log =
        sentFrames s.log ++
          (s.pendingWsMessages.filter (fun m => decide (now - m.createdAt > 10000))).map
            WsMessage.message ++
          (if msecs + 10000 < now then [(newWsMessage payload msecs uuid).message] else []) := by
  have hsend : sendMessage s payload msecs uuid =
      { s with pendingWsMessages := s.pendingWsMessages ++ [newWsMessage payload msecs uuid] } := by
    unfold sendMessage
    dsimp only
    rw [hdisconnected]
    rfl
  have hframes : sentFrames (webSocketConnectedSlot (sendMessage s payload msecs uuid)).log =
      sentFrames s.log := by
    rw [hsend]
    simp [webSocketConnectedSlot, NetworkClient.emit, sentFrames_append, sentFrames]
  refine ⟨by rw [hsend], by rw [hsend], rfl, by rw [hsend]; rfl, hframes, ?_⟩
  rw [(flush_rule_frames _ now), hframes]
  have hpending : (webSocketConnectedSlot (sendMessage s payload msecs uuid)).pendingWsMessages =
      s.pendingWsMessages ++ [newWsMessage payload msecs uuid] := by rw [hsend]; rfl
  have hconn : (webSocketConnectedSlot (sendMessage s payload msecs uuid)).webSocketConnected
      = true := rfl
  rw [hpending, hconn, if_pos rfl, List.filter_append, List.map_append, List.append_assoc]
  congr 2
  by_cases hage : msecs + 10000 < now
  · have hage2 : now - (newWsMessage payload msecs uuid).createdAt > 10000 := by
      show now - msecs > 10000
      omega
    simp [hage, hage2]
  · have hage2 : ¬ now - (newWsMessage payload msecs uuid).createdAt > 10000 := by
      show ¬ now - msecs > 10000
      omega
    simp [hage, hage2]

/-- Witness for C5: submit at time 3000 while disconnected, then connect; the tick at
time 20000 sends the message. -/
theorem submit_while_disconnected_witness :
    sentFrames (sendPendingWsMessages
        (webSocketConnectedSlot (sendMessage sampleClient "hello" 3000 "id-9")) 20000).log =
      [(newWsMessage "hello" 3000 "id-9").message] :=
  (submit_while_disconnected sampleClient "hello" 3000 "id-9" 20000 rfl).2.2.2.2.2

/-! ## Token gate -/

/-- C6: when the token store reports the access token expired and the refresh exchange is
answered with status 401, each of `createGroup`, `findChats`, `getYourChats`,
`getDialogueMessages` and `getGroupMessages` returns after doing exactly two things:
handing the refresh request to the transport and emitting `unauthorizedSignal` once.  The
original request is never handed to the transport, no result or domain error is emitted
and the stored tokens are unchanged. -/
theorem authorization_failure_gate (env : Env) (budget : Nat) (body : QMap)
    (s : NetworkClient) (reply : QNetworkReply) (rest : List QNetworkReply)
    (hexpired : env.isAccessTokenExpired s.authorizationManager = true)
    (hreplies : s.replies = reply :: rest)
    (hanswered : reply.transportFailed = false)
    (h401 : reply.status = 401) :
    createGroup env (budget + 1) body s =
        some ((afterExchange s (refreshRequest s) rest).emit Signal.unauthorizedSignal) ∧
      findChats env (budget + 1) body s =
        some ((afterExchange s (refreshRequest s) rest).emit Signal.unauthorizedSignal) ∧
      getYourChats env (budget + 1) s =
        some ((afterExchange s (refreshRequest s) rest).emit Signal.unauthorizedSignal) ∧
      getDialogueMessages env (budget + 1) body s =
        some ((afterExchange s (refreshRequest s) rest).emit Signal.unauthorizedSignal) ∧
      getGroupMessages env (budget + 1) body s =
        some ((afterExchange s (refreshRequest s) rest).emit Signal.unauthorizedSignal) ∧
      ((afterExchange s (refreshRequest s) rest).emit Signal.unauthorizedSignal).log =
        s.log ++ [refreshRequest s, Effect.emit Signal.unauthorizedSignal] ∧
      emitted ((afterExchange s (refreshRequest s) rest).emit Signal.unauthorizedSignal).log =
        emitted s.log ++ [Signal.unauthorizedSignal] ∧
      ((afterExchange s (refreshRequest s) rest).emit
        Signal.unauthorizedSignal).authorizationManager = s.authorizationManager := by
  have hgate := fun request =>
    setAuthorizationHeader_rejected env s request reply rest hexpired hreplies hanswered h401
  refine ⟨?_, ?_, ?_, ?_, ?_, ?_, ?_, rfl⟩
  · unfold createGroup; simp only [hgate]
  · unfold findChats; simp only [hgate]
  · unfold getYourChats; simp only [hgate]
  · unfold getDialogueMessages; simp only [hgate]
  · unfold getGroupMessages; simp only [hgate]
  · simp [NetworkClient.emit, afterExchange]
  · simp [NetworkClient.emit, afterExchange, emitted_append, emitted, refreshRequest]

/-- Witness for C6: `createGroup` with an expired access token and a refresh exchange
answered with status 401. -/
theorem authorization_failure_gate_witness :
    emitted ((afterExchange (staleClient [unauthorizedReply])
        (refreshRequest (staleClient [unauthorizedReply])) []).emit
        Signal.unauthorizedSignal).log =
      emitted (staleClient [unauthorizedReply]).log ++ [Signal.unauthorizedSignal] :=
  (authorization_failure_gate sampleEnv 0 [("name", "club")] (staleClient [unauthorizedReply])
    unauthorizedReply [] (by decide) rfl (by decide) rfl).2.2.2.2.2.2.1

/-- C7, counterexample: with an expired access token and a refresh exchange that fails
with host-not-found, `refresh` reports success at once, without a second exchange and
without replacing the stored access token, and the gate attaches the expired token that
was in the store before it ran. -/
theorem refresh_transport_failure_reports_success :
    sampleEnv.isAccessTokenExpired (staleClient [hostNotFound]).authorizationManager = true ∧
      (refresh sampleEnv (staleClient [hostNotFound]) [("refresh", "r")]).map
          (fun r => (r.2, r.1.authorizationManager.accessToken, r.1.replies)) =
        some (true, "stale", []) ∧
      (setAuthorizationHeader sampleEnv (staleClient [hostNotFound])
          (createHttpRequest "create/group")).map
          (fun r => (r.2.2, QMap.value r.2.1.headers "Authorization",
            r.1.authorizationManager.accessToken)) =
        some (true, "Bearer stale", "stale") :=
  ⟨by decide, by decide, by decide⟩

/-- C7, amended: the refresh exchange is made once.  Answered with a status other than
401, `refresh` replaces the stored access token by the `access` member of the response
and reports success; answered with 401 it reports failure and leaves the store alone; on
host-not-found or connection-refused it reports success without retrying and without
touching the store.  So for a request gated by `setAuthorizationHeader` with an expired
access token, the bearer credential attached is the access token of the response when
the exchange was answered (status not 401), and the token already in the store when the
exchange failed at the transport. -/
theorem refresh_outcome (env : Env) (s : NetworkClient) (body : QMap)
    (request : QNetworkRequest) (reply : QNetworkReply) (rest : List QNetworkReply)
    (hreplies : s.replies = reply :: rest) :
    (reply.transportFailed = false → reply.status ≠ 401 →
        refresh env s body =
          some ({ s with
                    replies := rest
                    authorizationManager :=
                      { s.authorizationManager with accessToken := accessOf env reply }
                    log := s.log ++ [Effect.post (createHttpRequest "sign/refresh")
                      (formContent body), Effect.setAccessToken (accessOf env reply)] },
            true)) ∧
      (reply.transportFailed = false → reply.status = 401 →
        refresh env s body =
          some (afterExchange s (Effect.post (createHttpRequest "sign/refresh")
            (formContent body)) rest, false)) ∧
      (reply.transportFailed = true →
        refresh env s body =
          some (afterExchange s (Effect.post (createHttpRequest "sign/refresh")
            (formContent body)) rest, true)) ∧
      (env.isAccessTokenExpired s.authorizationManager = true →
        reply.transportFailed = false → reply.status ≠ 401 →
        setAuthorizationHeader env s request =
          some ({ s with
                    replies := rest
                    authorizationManager :=
                      { s.authorizationManager with accessToken := accessOf env reply }
                    log := s.log ++ [refreshRequest s,
                      Effect.setAccessToken (accessOf env reply)] },
            request.setRawHeader "Authorization" ("Bearer " ++ accessOf env reply), true)) ∧
      (env.isAccessTokenExpired s.authorizationManager = true →
        reply.transportFailed = true →
        setAuthorizationHeader env s request =
          some (afterExchange s (refreshRequest s) rest,
            request.setRawHeader "Authorization"
              ("Bearer " ++ s.authorizationManager.accessToken), true)) := by
  have hrefresh := fun b => refresh_of_reply env s b reply rest hreplies
  refine ⟨?_, ?_, ?_, ?_, ?_⟩
  · intro hanswered hstatus
    rw [hrefresh, hanswered, if_neg (by simp), if_neg hstatus]
  · intro hanswered hstatus
    rw [hrefresh, hanswered, if_neg (by simp), if_pos hstatus]
  · intro hfailed
    rw [hrefresh, if_pos hfailed]
  · intro hexpired hanswered hstatus
    unfold setAuthorizationHeader
    rw [if_pos hexpired]
    dsimp only
    rw [hrefresh, hanswered, if_neg (by simp), if_neg hstatus]
    rfl
  · intro hexpired hfailed
    unfold setAuthorizationHeader
    rw [if_pos hexpired]
    dsimp only
    rw [hrefresh, if_pos hfailed]
    rfl

/-- Witness for C7: an expired access token and a refresh exchange answered with a new
token; the gate attaches the new token. -/
theorem refresh_outcome_witness :
    (setAuthorizationHeader sampleEnv (staleClient [tokenReply])
        (createHttpRequest "create/group")).map
        (fun r => (r.2.2, QMap.value r.2.1.headers "Authorization",
          r.1.authorizationManager.accessToken)) =
      some (true, "Bearer fresh", "fresh") := by
  rw [(refresh_outcome sampleEnv (staleClient [tokenReply]) [] (createHttpRequest "create/group")
    tokenReply [] rfl).2.2.2.1 (by decide) (by decide) (by decide)]
  decide

/-! ## Sign-in and sign-up -/

/-- C8, counterexample: the first chunk `Not  Found` (two spaces) has no marker and no
whitespace at its ends, so its status text is itself and the specification classifies it
as success; the handler reports `User not found!`.  The first chunk `data: Forbidden` has the
status text `Forbidden`, for which the specification promises `Wrong password!` and no
stored token pair; the handler takes it as success and the token pair of the body is stored. -/
theorem sign_status_text_differs :
    statusTextOfSpec "Not  Found" = "Not  Found" ∧
      signErrorOfSpec (statusTextOfSpec "Not  Found") = none ∧
      emitted (signReadyRead (SignContext.fresh, clientWith []) "Not  Found").2.log =
        emitted (clientWith []).log ++ [Signal.httpSignError "User not found!"] ∧
      statusTextOfSpec "data: Forbidden" = "Forbidden" ∧
      signErrorOfSpec (statusTextOfSpec "data: Forbidden") = some "Wrong password!" ∧
      (sign sampleEnv 1 [] "sign/in" (clientWith [signReply "data: Forbidden"])).map
          (fun s => (emitted s.log, s.authorizationManager)) =
        some ([Signal.initialized, Signal.shouldConfirmEmailSignal, Signal.httpSignProcessed],
          { accessToken := "fresh", refreshToken := "r2" }) :=
  ⟨by decide, by decide, rfl, by decide, by decide, rfl⟩

/-- C8, amended: the status text of the first chunk is the chunk simplified (whitespace
removed at both ends and every inner run of whitespace turned into one space) and then
with every `data:` deleted, in this order.  `Not Found`, `Forbidden`, `Conflict` and
`Unprocessable Entity` yield the errors `User not found!`, `Wrong password!`,
`User already exists!` and `Something went wrong, try again!`; any other text yields
success.  In the four error cases, whatever chunks follow, a request that finishes
without host-not-found or connection-refused has emitted exactly that one sign error and
nothing else, and no token is stored; in the success case the finish handler stores the
token pair read from the later chunks. -/
theorem sign_first_chunk_classification (env : Env) (budget : Nat) (body : QMap)
    (path : String) (s : NetworkClient) (reply : QNetworkReply) (rest : List QNetworkReply)
    (first : String) (later : List String)
    (hreplies : s.replies = reply :: rest)
    (hchunks : reply.chunks = first :: later)
    (hfinished : reply.transportFailed = false) :
    signReadyRead (SignContext.fresh, s) first =
        (match signErrorOfSpec (signStatus first) with
          | some text =>
            ({ SignContext.fresh with statusChecked := true },
              s.emit (Signal.httpSignError text))
          | none =>
            ({ success := true, statusChecked := true, dataAsArray := "" },
              s.emit Signal.shouldConfirmEmailSignal)) ∧
      (∀ text, signErrorOfSpec (signStatus first) = some text →
        sign env (budget + 1) body path s =
          some ((afterExchange s (Effect.post (createHttpRequest path) (formContent body))
            rest).emit (Signal.httpSignError text))) ∧
      (signErrorOfSpec (signStatus first) = none →
        sign env (budget + 1) body path s =
          some (signCompleted env
            { success := true, statusChecked := true, dataAsArray := String.join later }
            ((afterExchange s (Effect.post (createHttpRequest path) (formContent body))
              rest).emit Signal.shouldConfirmEmailSignal))) := by
  refine ⟨signReadyRead_first s first, ?_, ?_⟩
  · intro text htext
    unfold sign exchange
    rw [hreplies]
    dsimp only
    rw [hchunks, List.foldl_cons, signReadyRead_first, htext]
    dsimp only
    rw [foldl_signReadyRead_checked later _ _ rfl, hfinished]
    simp [signCompleted, SignContext.fresh, afterExchange]
  · intro hnone
    unfold sign exchange
    rw [hreplies]
    dsimp only
    rw [hchunks, List.foldl_cons, signReadyRead_first, hnone]
    dsimp only
    rw [foldl_signReadyRead_checked later _ _ rfl, hfinished]
    simp [afterExchange, String.join]

/-- Witness for C8: a sign-in whose first chunk is `data:Forbidden`, followed by more
data. -/
theorem sign_first_chunk_classification_witness :
    sign sampleEnv 1 [] "sign/in" (clientWith [signReply "data:Forbidden\n\n"]) =
      some ((afterExchange (clientWith [signReply "data:Forbidden\n\n"])
        (Effect.post (createHttpRequest "sign/in") (formContent [])) []).emit
        (Signal.httpSignError "Wrong password!")) :=
  (sign_first_chunk_classification sampleEnv 0 [] "sign/in"
    (clientWith [signReply "data:Forbidden\n\n"]) (signReply "data:Forbidden\n\n") []
    "data:Forbidden\n\n" [tokenBody] rfl rfl (by decide)).2.1 "Wrong password!" (by decide)

/-! ## Transport failures -/

/-- C9, counterexample for `sign`: the first attempt fails with host-not-found and the
second is answered with `Conflict`; besides the error of the second attempt the
dispatcher has received an error for the failed attempt. -/
theorem sign_reports_transport_failure :
    (sign sampleEnv 2 [] "sign/up"
        (clientWith [hostNotFound, signReply "data:Conflict"])).map (fun s => emitted s.log) =
      some [Signal.initialized,
        Signal.httpSignError "We are experiencing some issues on our server!",
        Signal.httpSignError "User already exists!"] :=
  rfl

/-- C9, amended: when the reply to the request of an attempt fails with host-not-found or
connection-refused, the operation is started again with the same arguments.  For
`checkRefreshToken`, `createGroup`, `findChats`, `getYourChats`, `getDialogueMessages` and
`getGroupMessages` the failed attempt has emitted nothing; for `sign` it has emitted
exactly one error, `We are experiencing some issues on our server!` (the reply having
failed before any data arrived).  Here `t` is the client when the request of the attempt
is handed over: the client at the call for `sign` and `checkRefreshToken`, the client
after the token gate has passed for the other five. -/
theorem transport_failure_restarts (env : Env) (budget : Nat) (body : QMap) (path : String)
    (t : NetworkClient) (reply : QNetworkReply) (rest : List QNetworkReply)
    (hreplies : t.replies = reply :: rest)
    (hfailed : reply.transportFailed = true) :
    (reply.chunks = [] →
        sign env (budget + 1) body path t =
          sign env budget body path
            ((afterExchange t (Effect.post (createHttpRequest path) (formContent body))
              rest).emit
              (Signal.httpSignError "We are experiencing some issues on our server!"))) ∧
      emitted ((afterExchange t (Effect.post (createHttpRequest path) (formContent body))
          rest).emit
          (Signal.httpSignError "We are experiencing some issues on our server!")).log =
        emitted t.log ++
          [Signal.httpSignError "We are experiencing some issues on our server!"] ∧
      checkRefreshToken env (budget + 1) t =
        checkRefreshToken env budget
          (afterExchange t (Effect.get (createHttpRequestWithQuery
            [("refresh", t.authorizationManager.refreshToken)] "sign/check-refresh")) rest) ∧
      (∀ s request,
        setAuthorizationHeader env s (createHttpRequest "create/group") =
          some (t, request, true) →
        createGroup env (budget + 1) body s =
          createGroup env budget body
            (afterExchange t (Effect.post request (formContent body)) rest) ∧
        emitted (afterExchange t (Effect.post request (formContent body)) rest).log =
          emitted s.log) ∧
      (∀ s request,
        setAuthorizationHeader env s (createHttpRequestWithQuery body "api/find") =
          some (t, request, true) →
        findChats env (budget + 1) body s =
          findChats env budget body (afterExchange t (Effect.get request) rest) ∧
        emitted (afterExchange t (Effect.get request) rest).log = emitted s.log) ∧
      (∀ s request,
        setAuthorizationHeader env s (createHttpRequest "api/chats") =
          some (t, request, true) →
        getYourChats env (budget + 1) s =
          getYourChats env budget (afterExchange t (Effect.get request) rest) ∧
        emitted (afterExchange t (Effect.get request) rest).log = emitted s.log) ∧
      (∀ s request,
        setAuthorizationHeader env s (createHttpRequestWithQuery body "messages/dialogue") =
          some (t, request, true) →
        getDialogueMessages env (budget + 1) body s =
          getDialogueMessages env budget body (afterExchange t (Effect.get request) rest) ∧
        emitted (afterExchange t (Effect.get request) rest).log = emitted s.log) ∧
      (∀ s request,
        setAuthorizationHeader env s (createHttpRequestWithQuery body "messages/group") =
          some (t, request, true) →
        getGroupMessages env (budget + 1) body s =
          getGroupMessages env budget body (afterExchange t (Effect.get request) rest) ∧
        emitted (afterExchange t (Effect.get request) rest).log = emitted s.log) := by
  have hquiet : ∀ (s : NetworkClient) (request0 request : QNetworkRequest) (sent : Effect),
      setAuthorizationHeader env s request0 = some (t, request, true) →
      emitted [sent] = [] → emitted (afterExchange t sent rest).log = emitted s.log := by
    intro s request0 request sent hgate hsent
    have := (setAuthorizationHeader_sameSession hgate).2.2.2.2.2.1
    simp only [afterExchange, emitted_append, this, hsent, List.append_nil]
  refine ⟨?_, ?_, ?_, ?_, ?_, ?_, ?_, ?_⟩
  · intro hchunks
    conv_lhs => unfold sign exchange
    rw [hreplies]
    dsimp only
    rw [hchunks, hfailed]
    rfl
  · simp [NetworkClient.emit, afterExchange, emitted_append, emitted]
  · conv_lhs => unfold checkRefreshToken exchange
    rw [hreplies]
    dsimp only
    rw [hfailed]
    rfl
  · intro s request hgate
    refine ⟨?_, hquiet s _ request _ hgate rfl⟩
    conv_lhs => unfold createGroup exchange
    simp only [hgate, hreplies, hfailed, if_true]
    rfl
  · intro s request hgate
    refine ⟨?_, hquiet s _ request _ hgate rfl⟩
    conv_lhs => unfold findChats exchange
    simp only [hgate, hreplies, hfailed, if_true]
    rfl
  · intro s request hgate
    refine ⟨?_, hquiet s _ request _ hgate rfl⟩
    conv_lhs => unfold getYourChats exchange
    simp only [hgate, hreplies, hfailed, if_true]
    rfl
  · intro s request hgate
    refine ⟨?_, hquiet s _ request _ hgate rfl⟩
    conv_lhs => unfold getDialogueMessages exchange
    simp only [hgate, hreplies, hfailed, if_true]
    rfl
  · intro s request hgate
    refine ⟨?_, hquiet s _ request _ hgate rfl⟩
    conv_lhs => unfold getGroupMessages exchange
    simp only [hgate, hreplies, hfailed, if_true]
    rfl

/-- Witness for C9: `createGroup` with a valid access token whose first request fails
with host-not-found is started again on the rest of the script. -/
theorem transport_failure_restarts_witness :
    createGroup sampleEnv 2 [("name", "club")] (clientWith [hostNotFound, tokenReply]) =
      createGroup sampleEnv 1 [("name", "club")]
        (afterExchange (clientWith [hostNotFound, tokenReply])
          (Effect.post ((createHttpRequest "create/group").setRawHeader "Authorization"
            "Bearer valid") (formContent [("name", "club")])) [tokenReply]) :=
  ((transport_failure_restarts sampleEnv 1 [("name", "club")] "sign/in"
    (clientWith [hostNotFound, tokenReply]) hostNotFound [tokenReply] rfl (by decide)).2.2.2.1
    (clientWith [hostNotFound, tokenReply]) _ rfl).1

/-! ## Reconnect state machine -/

end Jessenger
